import Mathlib

/-!
# Verification of the miniquad resource-command core (src/main.rs)

Shallow embedding of the resource-lifecycle core of the repository:

* the handle allocator (`BUFFER_ID : AtomicU32`, main.rs line 229),
* the producer side `RenderApi` (`new_vertex_buffer`, `new_index_buffer`,
  `delete_buffer`, main.rs lines 237-269),
* the consumer side `Stage::update` (main.rs lines 302-332) over a
  `HashMap<GfxBufferId, BufferId>` modelled as an association list,
* the slot-swap producer `App::draw` (main.rs lines 89-118) and the mesh
  regeneration routines (`regen_mesh1/2/3`, lines 120-194),
* the resize notification path (`async_channel::unbounded`, line 360;
  `Stage::resize_event`, lines 336-339; the relayer loop in `App::start`,
  lines 64-80).

Machine integers: `GfxBufferId` is `u32`; the allocator's `fetch_add` wraps,
which we model as `Nat` with an explicit `% 2^32`.  `u16` index payloads and
native handles carry no arithmetic and are embedded as `Nat`.  The `f32`
fields of `Vertex` are embedded as `Rat`: the program only ever stores the
constant `0.0` in them and performs no floating-point arithmetic on them.

Rust panics (`assert_eq!`, `.expect`, `.unwrap`) are embedded as
`Except Fault` errors; sends on closed channels that the source ignores
(`let _ = ...send(...)`) are embedded as no-ops.
-/

/-- A Rust panic, tagged by the construct that raised it:
`assertFailed` for `assert_eq!`, `expectFailed` for `.expect(..)`,
`unwrapFailed` for `.unwrap()`. -/
inductive Fault where
  | assertFailed : Fault
  | expectFailed : Fault
  | unwrapFailed : Fault
deriving DecidableEq, Repr

/-- `pub type GfxBufferId = u32;` (main.rs line 198). -/
abbrev GfxBufferId := Nat

/-- `struct Vertex { pos: [f32; 2], color: [f32; 4], uv: [f32; 2] }`
(main.rs lines 221-227).  The `f32` components are embedded as `Rat`;
the program only ever constructs the zero vertex and never computes
with the fields. -/
structure Vertex where
  pos : Rat × Rat
  color : Rat × Rat × Rat × Rat
  uv : Rat × Rat
deriving DecidableEq, Repr

/-- The all-zero vertex literal `Vertex { pos: [0.0, 0.0], color: [0.0; 4], uv: [0.0, 0.0] }`
that every regen routine repeats. -/
def zeroVertex : Vertex := { pos := (0, 0), color := (0, 0, 0, 0), uv := (0, 0) }

/-- `enum GraphicsMethod` (main.rs lines 271-276): the command variants
carried by the mpsc command channel. -/
inductive GraphicsMethod where
  | NewVertexBuffer : List Vertex × GfxBufferId → GraphicsMethod
  | NewIndexBuffer : List Nat × GfxBufferId → GraphicsMethod
  | DeleteBuffer : GfxBufferId → GraphicsMethod
deriving DecidableEq, Repr

/-- `struct MeshInfo` (main.rs lines 200-205). -/
structure MeshInfo where
  vertex_buffer : GfxBufferId
  index_buffer : GfxBufferId
  num_elements : Int
deriving DecidableEq, Repr

/-- `AtomicU32::fetch_add(1, Ordering::SeqCst)` on `BUFFER_ID`
(main.rs lines 229 and 243/254): returns the old value and stores the
incremented value, wrapping at `2^32`.  Pair is `(returned, new stored)`. -/
def fetch_add_u32 (c : Nat) : Nat × Nat := (c, (c + 1) % 2 ^ 32)

/-- The producer-visible state: the `BUFFER_ID` counter, the FIFO contents
of the `mpsc` command channel, and whether the consumer (`Stage`) has been
dropped (receiver closed).  The queue lists commands in send order; the
single consumer observes exactly this order. -/
structure RenderSt where
  bufferId : Nat
  queue : List GraphicsMethod
  closed : Bool
deriving DecidableEq, Repr

/-- `let _ = self.method_req.send(method);` — a send on the mpsc channel.
On a live channel it appends to the FIFO; on a closed channel `send`
returns `Err`, which the source discards, so the state is unchanged. -/
def sendMethod (m : GraphicsMethod) (s : RenderSt) : RenderSt :=
  if s.closed then s else { s with queue := s.queue ++ [m] }

/-- `RenderApi::new_vertex_buffer` (main.rs lines 242-251): fetch-add the
global counter, `assert_eq!(verts.len() % 4, 0)`, send
`NewVertexBuffer((verts, id))`, return the id.  The counter increment
happens before the assert, so a failing assert still consumes an id. -/
def new_vertex_buffer (verts : List Vertex) (s : RenderSt) :
    RenderSt × Except Fault GfxBufferId :=
  let p := fetch_add_u32 s.bufferId
  let gfx_buffer_id := p.1
  let s := { s with bufferId := p.2 }
  if verts.length % 4 ≠ 0 then (s, .error .assertFailed)
  else (sendMethod (.NewVertexBuffer (verts, gfx_buffer_id)) s, .ok gfx_buffer_id)

/-- `RenderApi::new_index_buffer` (main.rs lines 253-262): same shape with
`assert_eq!(indices.len() % 6, 0)`. -/
def new_index_buffer (indices : List Nat) (s : RenderSt) :
    RenderSt × Except Fault GfxBufferId :=
  let p := fetch_add_u32 s.bufferId
  let gfx_buffer_id := p.1
  let s := { s with bufferId := p.2 }
  if indices.length % 6 ≠ 0 then (s, .error .assertFailed)
  else (sendMethod (.NewIndexBuffer (indices, gfx_buffer_id)) s, .ok gfx_buffer_id)

/-- `RenderApi::delete_buffer` (main.rs lines 264-268): send
`DeleteBuffer(buffer)`, ignoring a send error.  Total: it can never fault. -/
def delete_buffer (buffer : GfxBufferId) (s : RenderSt) : RenderSt :=
  sendMethod (.DeleteBuffer buffer) s

/-! ## Consumer side: `Stage` (main.rs lines 278-332)

`Stage.buffers : HashMap<GfxBufferId, miniquad::BufferId>` is embedded as an
association list with unique keys; `hmLookup`, `hmInsert`, `hmErase` give
the `HashMap` `get`/`insert`/`remove` semantics (`insert` overwrites an
existing binding).  Native handles issued by `ctx.new_buffer` are modelled
as a stage-local counter, and `ctx.delete_buffer` appends the destroyed
native handle to `released`. -/

/-- `HashMap` lookup on the association list. -/
def hmLookup : List (GfxBufferId × Nat) → GfxBufferId → Option Nat
  | [], _ => none
  | (k, v) :: rest, id => if k = id then some v else hmLookup rest id

/-- `HashMap` key removal (keys are unique, so removing the first match
removes the binding). -/
def hmErase : List (GfxBufferId × Nat) → GfxBufferId → List (GfxBufferId × Nat)
  | [], _ => []
  | (k, v) :: rest, id => if k = id then rest else (k, v) :: hmErase rest id

/-- `HashMap::insert`: binds `k` to `v`, overwriting any existing binding. -/
def hmInsert (m : List (GfxBufferId × Nat)) (k : GfxBufferId) (v : Nat) :
    List (GfxBufferId × Nat) :=
  (k, v) :: hmErase m k

/-- The presentation-thread state: the resource table, the next native
handle `ctx.new_buffer` would issue, and the native handles destroyed by
`ctx.delete_buffer` so far. -/
structure StageSt where
  buffers : List (GfxBufferId × Nat)
  nextNative : Nat
  released : List Nat
deriving DecidableEq, Repr

/-- One arm of the `match method` in `Stage::update` (main.rs lines 305-330):
* `NewVertexBuffer`/`NewIndexBuffer`: `ctx.new_buffer(..)` then
  `self.buffers.insert(gfx_buffer_id, buffer)` — an overwriting insert;
* `DeleteBuffer`: `self.buffers.remove(&gfx_buffer_id).expect(..)` — a
  fault when the id is absent — then `self.ctx.delete_buffer(buffer)`. -/
def applyMethod (s : StageSt) : GraphicsMethod → Except Fault StageSt
  | .NewVertexBuffer (_, gfx_buffer_id) =>
    .ok { s with
      buffers := hmInsert s.buffers gfx_buffer_id s.nextNative
      nextNative := s.nextNative + 1 }
  | .NewIndexBuffer (_, gfx_buffer_id) =>
    .ok { s with
      buffers := hmInsert s.buffers gfx_buffer_id s.nextNative
      nextNative := s.nextNative + 1 }
  | .DeleteBuffer gfx_buffer_id =>
    match hmLookup s.buffers gfx_buffer_id with
    | none => .error .expectFailed
    | some buffer =>
      .ok { s with
        buffers := hmErase s.buffers gfx_buffer_id
        released := s.released ++ [buffer] }

/-- `Stage::update` (main.rs lines 302-332): drain the currently available
commands in FIFO order, applying each; a panic (`Fault`) aborts the drain. -/
def update (s : StageSt) : List GraphicsMethod → Except Fault StageSt
  | [] => .ok s
  | m :: rest =>
    match applyMethod s m with
    | .error e => .error e
    | .ok s' => update s' rest

/-! ## Producer side: `App` (main.rs lines 20-195)

The mesh payload literals of `regen_mesh1/2/3` (all-zero vertex lists and
the fixed index patterns) and the regeneration routines, which allocate a
vertex and an index buffer through `RenderApi` and package them into a
`MeshInfo`.  The slots `mesh1`, `mesh2` (`Option<MeshInfo>`) and `mesh3`
(`MeshInfo`) live in `App`. -/

/-- The 4-vertex payload of `regen_mesh1` (main.rs lines 121-126). -/
def verts1 : List Vertex := List.replicate 4 zeroVertex

/-- The index payload of `regen_mesh1` (main.rs line 127). -/
def indices1 : List Nat := [0, 2, 1, 1, 2, 3]

/-- The 8-vertex payload of `regen_mesh2` (main.rs lines 137-146). -/
def verts2 : List Vertex := List.replicate 8 zeroVertex

/-- The index payload of `regen_mesh2` (main.rs line 147). -/
def indices2 : List Nat := [0, 2, 1, 1, 2, 3, 4, 6, 5, 5, 6, 7]

/-- The 24-vertex payload of `regen_mesh3` (main.rs lines 157-182). -/
def verts3 : List Vertex := List.replicate 24 zeroVertex

/-- The index payload of `regen_mesh3` (main.rs lines 183-186). -/
def indices3 : List Nat :=
  [0, 2, 1, 1, 2, 3, 4, 6, 5, 5, 6, 7, 8, 10, 9, 9, 10, 11, 12, 14, 13, 13,
   14, 15, 16, 18, 17, 17, 18, 19, 20, 22, 21, 21, 22, 23]

/-- `App::regen_mesh1` (main.rs lines 120-134): allocate vertex then index
buffer for the quad payload; `num_elements = indices.len() as i32`.
A panic inside either allocation propagates. -/
def regen_mesh1 (s : RenderSt) : RenderSt × Except Fault MeshInfo :=
  match new_vertex_buffer verts1 s with
  | (s, .error e) => (s, .error e)
  | (s, .ok vertex_buffer) =>
    match new_index_buffer indices1 s with
    | (s, .error e) => (s, .error e)
    | (s, .ok index_buffer) =>
      (s, .ok { vertex_buffer, index_buffer, num_elements := (indices1.length : Int) })

/-- `App::regen_mesh2` (main.rs lines 136-154). -/
def regen_mesh2 (s : RenderSt) : RenderSt × Except Fault MeshInfo :=
  match new_vertex_buffer verts2 s with
  | (s, .error e) => (s, .error e)
  | (s, .ok vertex_buffer) =>
    match new_index_buffer indices2 s with
    | (s, .error e) => (s, .error e)
    | (s, .ok index_buffer) =>
      (s, .ok { vertex_buffer, index_buffer, num_elements := (indices2.length : Int) })

/-- `App::regen_mesh3` (main.rs lines 156-194). -/
def regen_mesh3 (s : RenderSt) : RenderSt × Except Fault MeshInfo :=
  match new_vertex_buffer verts3 s with
  | (s, .error e) => (s, .error e)
  | (s, .ok vertex_buffer) =>
    match new_index_buffer indices3 s with
    | (s, .error e) => (s, .error e)
    | (s, .ok index_buffer) =>
      (s, .ok { vertex_buffer, index_buffer, num_elements := (indices3.length : Int) })

/-- The slot-swap primitive of §4.4: the
`std::mem::replace(&mut *slot.lock().unwrap(), Some(new))` pattern of
`App::draw` (main.rs lines 100 and 107) on an `Option<MeshInfo>` slot.
Returns `(new slot contents, previous contents)`. -/
def publish (slot : Option MeshInfo) (new : MeshInfo) :
    Option MeshInfo × Option MeshInfo :=
  (some new, slot)

/-- The delete commands owed for a slot's previous contents: `App::draw`
pushes `old.vertex_buffer` then `old.index_buffer` onto `freed_buffers`
when the slot held a descriptor (main.rs lines 101-104 and 108-111),
nothing otherwise. -/
def owedDeletes : Option MeshInfo → List GfxBufferId
  | some old => [old.vertex_buffer, old.index_buffer]
  | none => []

/-- The producer state of `App`: the render-api state plus the three mesh
slots (main.rs lines 28-30). -/
structure AppSt where
  rs : RenderSt
  mesh1 : Option MeshInfo
  mesh2 : Option MeshInfo
  mesh3 : MeshInfo
deriving DecidableEq, Repr

/-- `App::draw` (main.rs lines 89-118): for each slot, regenerate the mesh
(sending the two `Create` commands), swap it into the slot, and collect
the previous contents' buffer ids in `freed_buffers`; after all three
swaps, send one `DeleteBuffer` per freed id, in collection order.
Order of slots in the source: mesh3, mesh2, mesh1. -/
def draw (a : AppSt) : Except Fault AppSt :=
  match regen_mesh3 a.rs with
  | (_, .error e) => .error e
  | (rs, .ok mesh3) =>
    let old3 := a.mesh3
    let a := { a with rs := rs, mesh3 := mesh3 }
    let freed := [old3.vertex_buffer, old3.index_buffer]
    match regen_mesh2 a.rs with
    | (_, .error e) => .error e
    | (rs, .ok mesh2) =>
      let p2 := publish a.mesh2 mesh2
      let a := { a with rs := rs, mesh2 := p2.1 }
      let freed := freed ++ owedDeletes p2.2
      match regen_mesh1 a.rs with
      | (_, .error e) => .error e
      | (rs, .ok mesh1) =>
        let p1 := publish a.mesh1 mesh1
        let a := { a with rs := rs, mesh1 := p1.1 }
        let freed := freed ++ owedDeletes p1.2
        .ok { a with rs := freed.foldl (fun rs b => delete_buffer b rs) a.rs }

/-- The `BUFFER_ID` static and the channel at process start:
counter `0`, empty FIFO, consumer alive. -/
def initRender : RenderSt := { bufferId := 0, queue := [], closed := false }

/-- `App::new` (main.rs lines 34-55): `regen_mesh3` runs synchronously and
its result seeds the `mesh3` slot; `mesh1` and `mesh2` start `None`. -/
def appStart : Except Fault AppSt :=
  match regen_mesh3 initRender with
  | (_, .error e) => .error e
  | (rs, .ok mesh3) => .ok { rs := rs, mesh1 := none, mesh2 := none, mesh3 := mesh3 }

/-- The producer after `App::new` followed by `n` complete `App::draw`
cycles (each resize wakeup or the initial startup draw runs one cycle). -/
def drawN : Nat → Except Fault AppSt
  | 0 => appStart
  | n + 1 =>
    match drawN n with
    | .error e => .error e
    | .ok a => draw a

/-! ## Resize notification channel (main.rs line 360, lines 64-80, 336-339)

`let (resize_sendr, resize_recvr) = async_channel::unbounded();` — an
unbounded mpmc FIFO.  `pending` is the number of queued `()` signals;
`closed` records whether every receiver has been dropped. -/

/-- The resize channel: `async_channel::unbounded::<()>()`. -/
structure ResizeChan where
  pending : List Unit
  closed : Bool
deriving DecidableEq, Repr

/-- The error cases of `async_channel`'s `try_send`.  On an unbounded
channel `full` can never occur; `closedErr` occurs once all receivers are
dropped. -/
inductive TrySendErr where
  | full : TrySendErr
  | closedErr : TrySendErr
deriving DecidableEq, Repr

/-- `try_send(())` on the unbounded resize channel: enqueues one signal,
or fails with `closedErr` when the receiver side is gone.  It never
coalesces: each successful send appends a fresh signal to the FIFO. -/
def try_send_resize (c : ResizeChan) : ResizeChan × Except TrySendErr Unit :=
  if c.closed then (c, .error .closedErr)
  else ({ c with pending := c.pending ++ [()] }, .ok ())

/-- `Stage::resize_event` (main.rs lines 336-339):
`self.resize_sendr.try_send(()).unwrap()` — a failed send panics. -/
def resize_event (c : ResizeChan) : Except Fault ResizeChan :=
  match try_send_resize c with
  | (c, .ok ()) => .ok c
  | (_, .error _) => .error .unwrapFailed

/-- `n` consecutive `resize_event` sends with no intervening receive
(rapid resize events before the logic task runs). -/
def notifyN : Nat → ResizeChan → ResizeChan
  | 0, c => c
  | n + 1, c => notifyN n (try_send_resize c).1

/-- One relayer-loop iteration per queued signal: `recv().await` pops a
single signal from the FIFO each time around the loop. -/
def drainSignals : List Unit → Nat
  | [] => 0
  | _ :: rest => drainSignals rest + 1

/-- How many times the relayer loop of `App::start` (main.rs lines 65-80)
resumes — receives a signal and calls `self_.draw()` — before it next
suspends, when no further signal arrives: `resize_recvr.recv().await`
pops exactly one queued signal per loop iteration, so the loop runs once
per pending signal. -/
def loopResumes (c : ResizeChan) : Nat := drainSignals c.pending

/-! ## Create-before-delete bookkeeping for the command FIFO (claim C4)

`createsIdB m id` says command `m` is the `Create` of id `id`;
`okQueueAux c q` walks the FIFO left to right carrying the list `c` of ids
created so far and checks that every `DeleteBuffer` refers to an id created
at an earlier position. -/

/-- Whether a command is the `Create` (`NewVertexBuffer`/`NewIndexBuffer`)
that produced `id`. -/
def createsIdB : GraphicsMethod → GfxBufferId → Bool
  | .NewVertexBuffer (_, i), id => i == id
  | .NewIndexBuffer (_, i), id => i == id
  | .DeleteBuffer _, _ => false

/-- `id` has a `Create` somewhere in `q`. -/
def createdB (q : List GraphicsMethod) (id : GfxBufferId) : Bool :=
  q.any fun m => createsIdB m id

/-- Accumulate the id a command creates, if any. -/
def pushCreated (c : List GfxBufferId) : GraphicsMethod → List GfxBufferId
  | .NewVertexBuffer (_, i) => i :: c
  | .NewIndexBuffer (_, i) => i :: c
  | .DeleteBuffer _ => c

/-- Membership in the accumulated id list. -/
def hasId : List GfxBufferId → GfxBufferId → Bool
  | [], _ => false
  | x :: rest, id => x == id || hasId rest id

/-- A command is admissible given the ids created so far: a delete needs
its id already created, a create is always admissible. -/
def okStep (c : List GfxBufferId) : GraphicsMethod → Bool
  | .DeleteBuffer id => hasId c id
  | .NewVertexBuffer _ => true
  | .NewIndexBuffer _ => true

/-- Left-to-right check of the FIFO, threading the created ids. -/
def okQueueAux (c : List GfxBufferId) : List GraphicsMethod → Bool
  | [] => true
  | m :: rest => okStep c m && okQueueAux (pushCreated c m) rest

/-- Every `DeleteBuffer` in `q` is preceded by a `Create` of its id. -/
def okQueue (q : List GraphicsMethod) : Bool := okQueueAux [] q

/-- The created ids accumulated over a whole block of commands. -/
def collectCreated (c : List GfxBufferId) (q : List GraphicsMethod) :
    List GfxBufferId :=
  q.foldl pushCreated c

/-- Positional form of the create-before-delete property: wherever a
`DeleteBuffer id` sits in the FIFO, a `Create` of `id` sits strictly
earlier. -/
def DeleteAfterCreate (q : List GraphicsMethod) : Prop :=
  ∀ (i : Nat) (id : GfxBufferId), q[i]? = some (GraphicsMethod.DeleteBuffer id) →
    ∃ (j : Nat) (m : GraphicsMethod), j < i ∧ q[j]? = some m ∧ createsIdB m id = true

/-- Both buffer ids of a descriptor have `Create` commands in the FIFO. -/
def meshCreated (q : List GraphicsMethod) (m : MeshInfo) : Prop :=
  createdB q m.vertex_buffer = true ∧ createdB q m.index_buffer = true

/-- Invariant of the producer over draw cycles: the consumer is alive, the
FIFO is create-before-delete sound, and every descriptor currently held by
a slot has its two `Create` commands already in the FIFO. -/
def AppInv (a : AppSt) : Prop :=
  a.rs.closed = false ∧ okQueue a.rs.queue = true ∧
  meshCreated a.rs.queue a.mesh3 ∧
  (∀ m, a.mesh2 = some m → meshCreated a.rs.queue m) ∧
  (∀ m, a.mesh1 = some m → meshCreated a.rs.queue m)

/-- The wrap step of the `u32` counter. -/
def bump (b : Nat) : Nat := (b + 1) % 2 ^ 32

/-- The value stored in `BUFFER_ID` after `k` `fetch_add(1, SeqCst)` calls,
in their (sequentially consistent) linearization order. -/
def bufferIdAfter : Nat → Nat
  | 0 => 0
  | k + 1 => (fetch_add_u32 (bufferIdAfter k)).2

/-- The id returned by the `k`-th allocator call (0-indexed) in the
linearization order of the `fetch_add`s, regardless of which thread or of
which of `new_vertex_buffer`/`new_index_buffer` performs it. -/
def allocRet (k : Nat) : Nat := (fetch_add_u32 (bufferIdAfter k)).1

/-- The producer state after `App::new` and one `App::draw` (the startup
draw of `App::start`); the fallback default is never used, as
`drawN 1` evaluates to a success. -/
def appAfter1 : AppSt :=
  (drawN 1).toOption.getD
    { rs := initRender, mesh1 := none, mesh2 := none
      mesh3 := { vertex_buffer := 0, index_buffer := 0, num_elements := 0 } }

/-! # Theorems -/

/-! ## RenderApi submission lemmas -/

theorem new_vertex_buffer_ok (verts : List Vertex) (s : RenderSt)
    (h4 : verts.length % 4 = 0) (hc : s.closed = false) :
    new_vertex_buffer verts s =
      ({ s with bufferId := bump s.bufferId
                queue := s.queue ++ [.NewVertexBuffer (verts, s.bufferId)] },
       .ok s.bufferId) := by
  simp [new_vertex_buffer, fetch_add_u32, sendMethod, bump, h4, hc]

theorem new_index_buffer_ok (indices : List Nat) (s : RenderSt)
    (h6 : indices.length % 6 = 0) (hc : s.closed = false) :
    new_index_buffer indices s =
      ({ s with bufferId := bump s.bufferId
                queue := s.queue ++ [.NewIndexBuffer (indices, s.bufferId)] },
       .ok s.bufferId) := by
  simp [new_index_buffer, fetch_add_u32, sendMethod, bump, h6, hc]

theorem new_vertex_buffer_fault (verts : List Vertex) (s : RenderSt)
    (h4 : verts.length % 4 ≠ 0) :
    new_vertex_buffer verts s =
      ({ s with bufferId := bump s.bufferId }, .error .assertFailed) := by
  simp [new_vertex_buffer, fetch_add_u32, bump, h4]

theorem new_index_buffer_fault (indices : List Nat) (s : RenderSt)
    (h6 : indices.length % 6 ≠ 0) :
    new_index_buffer indices s =
      ({ s with bufferId := bump s.bufferId }, .error .assertFailed) := by
  simp [new_index_buffer, fetch_add_u32, bump, h6]

theorem new_vertex_buffer_closed (verts : List Vertex) (s : RenderSt)
    (h4 : verts.length % 4 = 0) (hc : s.closed = true) :
    new_vertex_buffer verts s =
      ({ s with bufferId := bump s.bufferId }, .ok s.bufferId) := by
  simp [new_vertex_buffer, fetch_add_u32, sendMethod, bump, h4, hc]

theorem new_index_buffer_closed (indices : List Nat) (s : RenderSt)
    (h6 : indices.length % 6 = 0) (hc : s.closed = true) :
    new_index_buffer indices s =
      ({ s with bufferId := bump s.bufferId }, .ok s.bufferId) := by
  simp [new_index_buffer, fetch_add_u32, sendMethod, bump, h6, hc]

/-- C7: submission raises the validation fault exactly when the payload
violates the kind's divisibility constraint (vertex length not a multiple
of 4, index length not a multiple of 6); on a well-formed payload it
allocates the next counter id, enqueues the matching `Create` command at
the tail of the FIFO, and returns that id immediately (the function is a
plain state transformer: it never waits for the consumer to apply the
command). -/
theorem c7_submit_create_validation (verts : List Vertex) (indices : List Nat)
    (s : RenderSt) (hc : s.closed = false) :
    ((new_vertex_buffer verts s).2 = .error .assertFailed ↔ verts.length % 4 ≠ 0) ∧
    (verts.length % 4 = 0 →
      new_vertex_buffer verts s =
        ({ s with bufferId := bump s.bufferId
                  queue := s.queue ++ [.NewVertexBuffer (verts, s.bufferId)] },
         .ok s.bufferId)) ∧
    ((new_index_buffer indices s).2 = .error .assertFailed ↔ indices.length % 6 ≠ 0) ∧
    (indices.length % 6 = 0 →
      new_index_buffer indices s =
        ({ s with bufferId := bump s.bufferId
                  queue := s.queue ++ [.NewIndexBuffer (indices, s.bufferId)] },
         .ok s.bufferId)) := by
  refine ⟨?_, fun h4 => new_vertex_buffer_ok verts s h4 hc,
          ?_, fun h6 => new_index_buffer_ok indices s h6 hc⟩
  · constructor
    · intro he
      by_contra h4
      rw [new_vertex_buffer_ok verts s h4 hc] at he
      exact Except.noConfusion he
    · intro h4
      rw [new_vertex_buffer_fault verts s h4]
  · constructor
    · intro he
      by_contra h6
      rw [new_index_buffer_ok indices s h6 hc] at he
      exact Except.noConfusion he
    · intro h6
      rw [new_index_buffer_fault indices s h6]

theorem c7_witness :
    ((new_vertex_buffer verts1 initRender).2 = .error .assertFailed ↔
      verts1.length % 4 ≠ 0) ∧
    (verts1.length % 4 = 0 →
      new_vertex_buffer verts1 initRender =
        ({ initRender with bufferId := bump initRender.bufferId
                           queue := initRender.queue ++
                             [.NewVertexBuffer (verts1, initRender.bufferId)] },
         .ok initRender.bufferId)) ∧
    ((new_index_buffer indices1 initRender).2 = .error .assertFailed ↔
      indices1.length % 6 ≠ 0) ∧
    (indices1.length % 6 = 0 →
      new_index_buffer indices1 initRender =
        ({ initRender with bufferId := bump initRender.bufferId
                           queue := initRender.queue ++
                             [.NewIndexBuffer (indices1, initRender.bufferId)] },
         .ok initRender.bufferId)) :=
  c7_submit_create_validation verts1 indices1 initRender rfl

/-- C10: the `BUFFER_ID.fetch_add` precedes the `assert_eq!`, so a
submission with a malformed payload has already consumed an id when it
faults: the post-state's counter is stepped while nothing was enqueued, and
the next allocation will draw a fresh id (no retry can reuse the lost one). -/
theorem c10_id_consumed_on_invalid_payload (verts : List Vertex)
    (indices : List Nat) (s : RenderSt) :
    (verts.length % 4 ≠ 0 →
      new_vertex_buffer verts s =
        ({ s with bufferId := bump s.bufferId }, .error .assertFailed)) ∧
    (indices.length % 6 ≠ 0 →
      new_index_buffer indices s =
        ({ s with bufferId := bump s.bufferId }, .error .assertFailed)) :=
  ⟨fun h4 => new_vertex_buffer_fault verts s h4,
   fun h6 => new_index_buffer_fault indices s h6⟩

theorem c10_witness :
    new_vertex_buffer [zeroVertex] initRender =
      ({ initRender with bufferId := bump initRender.bufferId },
       .error .assertFailed) ∧
    new_index_buffer [0] initRender =
      ({ initRender with bufferId := bump initRender.bufferId },
       .error .assertFailed) :=
  ⟨(c10_id_consumed_on_invalid_payload [zeroVertex] [0] initRender).1 (by decide),
   (c10_id_consumed_on_invalid_payload [zeroVertex] [0] initRender).2 (by decide)⟩

/-- C8: with the consumer gone (`closed = true`), a well-formed
`new_vertex_buffer`/`new_index_buffer` neither faults nor blocks: the send
is dropped (FIFO unchanged), yet the call still returns the freshly drawn
counter id — valid and unique, merely never realized; `delete_buffer`
likewise degenerates to a total no-op. -/
theorem c8_closed_channel_best_effort (verts : List Vertex) (indices : List Nat)
    (id : GfxBufferId) (s : RenderSt) (hc : s.closed = true) :
    (verts.length % 4 = 0 →
      new_vertex_buffer verts s =
        ({ s with bufferId := bump s.bufferId }, .ok s.bufferId)) ∧
    (indices.length % 6 = 0 →
      new_index_buffer indices s =
        ({ s with bufferId := bump s.bufferId }, .ok s.bufferId)) ∧
    delete_buffer id s = s :=
  ⟨fun h4 => new_vertex_buffer_closed verts s h4 hc,
   fun h6 => new_index_buffer_closed indices s h6 hc,
   by simp [delete_buffer, sendMethod, hc]⟩

theorem c8_witness :
    new_vertex_buffer verts1 { bufferId := 9, queue := [], closed := true } =
      ({ bufferId := bump 9, queue := [], closed := true }, .ok 9) ∧
    new_index_buffer indices1 { bufferId := 9, queue := [], closed := true } =
      ({ bufferId := bump 9, queue := [], closed := true }, .ok 9) ∧
    delete_buffer 3 { bufferId := 9, queue := [], closed := true } =
      { bufferId := 9, queue := [], closed := true } :=
  ⟨(c8_closed_channel_best_effort verts1 indices1 3 _ rfl).1 (by decide),
   (c8_closed_channel_best_effort verts1 indices1 3 _ rfl).2.1 (by decide),
   (c8_closed_channel_best_effort verts1 indices1 3 _ rfl).2.2⟩

/-- C9: a failed `try_send` on the resize channel — possible exactly when
the receiver side has gone away — is unwrapped and panics
(`Fault.unwrapFailed`), never ignored; on a live channel the send enqueues
the signal.  By contrast a send failure on the forward command channel is
swallowed: `delete_buffer` on a closed channel is the identity and can
never fault (it does not even return a result to inspect). -/
theorem c9_notify_failure_fatal (c : ResizeChan) (id : GfxBufferId)
    (s : RenderSt) :
    (c.closed = true → resize_event c = .error .unwrapFailed) ∧
    (c.closed = false →
      resize_event c = .ok { c with pending := c.pending ++ [()] }) ∧
    (s.closed = true → delete_buffer id s = s) := by
  refine ⟨fun hcl => ?_, fun hcl => ?_, fun hcl => ?_⟩
  · simp [resize_event, try_send_resize, hcl]
  · simp [resize_event, try_send_resize, hcl]
  · simp [delete_buffer, sendMethod, hcl]

theorem c9_witness :
    resize_event { pending := [], closed := true } = .error .unwrapFailed ∧
    resize_event { pending := [], closed := false } =
      .ok { pending := [()], closed := false } ∧
    delete_buffer 0 { bufferId := 0, queue := [], closed := true } =
      { bufferId := 0, queue := [], closed := true } :=
  ⟨(c9_notify_failure_fatal { pending := [], closed := true } 0
      { bufferId := 0, queue := [], closed := true }).1 rfl,
   (c9_notify_failure_fatal { pending := [], closed := false } 0
      { bufferId := 0, queue := [], closed := true }).2.1 rfl,
   (c9_notify_failure_fatal { pending := [], closed := false } 0
      { bufferId := 0, queue := [], closed := true }).2.2 rfl⟩

/-! ## Resource table: delete of an unknown id, duplicate create -/

/-- C1: applying `DeleteBuffer id` when `id` is absent from the table hits
the `.expect("couldn't find gfx_buffer_id")` and panics — it aborts the
whole `update` drain and never silently succeeds; when `id` is present,
the entry is removed from the table and its native handle is destroyed
(appended to `released`). -/
theorem c1_delete_unknown_fatal (s : StageSt) (id : GfxBufferId) (h : Nat)
    (rest : List GraphicsMethod) :
    (hmLookup s.buffers id = none →
      applyMethod s (.DeleteBuffer id) = .error .expectFailed ∧
      update s (.DeleteBuffer id :: rest) = .error .expectFailed) ∧
    (hmLookup s.buffers id = some h →
      applyMethod s (.DeleteBuffer id) =
        .ok { s with buffers := hmErase s.buffers id
                     released := s.released ++ [h] }) := by
  constructor
  · intro hnone
    have happ : applyMethod s (.DeleteBuffer id) = .error .expectFailed := by
      simp [applyMethod, hnone]
    exact ⟨happ, by simp [update, happ]⟩
  · intro hsome
    simp [applyMethod, hsome]

theorem c1_witness :
    applyMethod ⟨[(3, 7)], 8, []⟩ (.DeleteBuffer 5) = .error .expectFailed ∧
    update ⟨[(3, 7)], 8, []⟩ [.DeleteBuffer 5] = .error .expectFailed ∧
    applyMethod ⟨[(3, 7)], 8, []⟩ (.DeleteBuffer 3) = .ok ⟨[], 8, [7]⟩ :=
  ⟨((c1_delete_unknown_fatal ⟨[(3, 7)], 8, []⟩ 5 0 []).1 (by decide)).1,
   ((c1_delete_unknown_fatal ⟨[(3, 7)], 8, []⟩ 5 0 []).1 (by decide)).2,
   (c1_delete_unknown_fatal ⟨[(3, 7)], 8, []⟩ 3 7 []).2 (by decide)⟩

/-- C3 counterexample: the claim says a `Create` whose id is already in
the table is treated as a fault; in the code `Stage::update` runs
`self.buffers.insert(gfx_buffer_id, buffer)` unconditionally, so with id 0
present (bound to native handle 5) a duplicate `NewVertexBuffer` succeeds
(`.ok`) and silently overwrites the binding with the new handle 6. -/
theorem c3_counterexample :
    hmLookup [(0, 5)] 0 = some 5 ∧
    applyMethod ⟨[(0, 5)], 6, []⟩ (.NewVertexBuffer (verts1, 0)) =
      .ok ⟨[(0, 6)], 7, []⟩ := by
  exact ⟨rfl, rfl⟩

/-- C3 amended: applying a `Create` whose id already exists in the table
is a silent overwrite, not a fault: the command is applied with `.ok`, the
table afterwards maps the id to the freshly created native handle, and the
previously bound handle is not destroyed (`released` is unchanged — the
old native buffer leaks). -/
theorem c3_amended_silent_overwrite (s : StageSt) (verts : List Vertex)
    (id : GfxBufferId) (h : Nat) (_hpres : hmLookup s.buffers id = some h) :
    applyMethod s (.NewVertexBuffer (verts, id)) =
      .ok { s with buffers := hmInsert s.buffers id s.nextNative
                   nextNative := s.nextNative + 1 } ∧
    hmLookup (hmInsert s.buffers id s.nextNative) id = some s.nextNative := by
  exact ⟨rfl, by simp [hmInsert, hmLookup]⟩

theorem c3_witness :
    applyMethod ⟨[(0, 5)], 6, []⟩ (.NewVertexBuffer (verts2, 0)) =
      .ok ⟨[(0, 6)], 7, []⟩ ∧
    hmLookup (hmInsert [(0, 5)] 0 6) 0 = some 6 :=
  c3_amended_silent_overwrite ⟨[(0, 5)], 6, []⟩ verts2 0 5 (by decide)

/-! ## Slot swap -/

/-- C6: publishing into an initially empty slot returns `none` (no delete
owed), publishing again returns the first descriptor, and the deletes owed
across the two publishes are exactly the two buffers (vertex then index)
of the first descriptor. -/
theorem c6_slot_swap (d1 d2 : MeshInfo) :
    publish none d1 = (some d1, none) ∧
    publish (publish none d1).1 d2 = (some d2, some d1) ∧
    owedDeletes (publish none d1).2 ++ owedDeletes (publish (publish none d1).1 d2).2 =
      [d1.vertex_buffer, d1.index_buffer] := by
  simp [publish, owedDeletes]

/-! ## Resize channel: no coalescing -/

theorem drainSignals_eq_length (l : List Unit) : drainSignals l = l.length := by
  induction l with
  | nil => rfl
  | cons x rest ih => simp [drainSignals, ih]

/-- C2 counterexample: two `notify` calls (`Stage::resize_event` sends) on
the empty open resize channel queue two signals, and the relayer loop of
`App::start` then resumes twice — not once.  The channel of main.rs line
360 is `async_channel::unbounded()`, which queues every signal instead of
coalescing them into a single slot. -/
theorem c2_counterexample :
    loopResumes (notifyN 2 { pending := [], closed := false }) = 2 ∧
    (2 : Nat) ≠ 1 := by
  exact ⟨rfl, by decide⟩

/-- C2 amended: the resize channel is an unbounded FIFO, so signals do not
coalesce: `n` `notify` calls before the logic task drains the channel add
`n` pending signals, and the relayer loop resumes once per queued signal —
`n` more times, not exactly once. -/
theorem c2_amended_one_resume_per_notify (n : Nat) (c : ResizeChan)
    (hc : c.closed = false) :
    loopResumes (notifyN n c) = loopResumes c + n := by
  induction n generalizing c with
  | zero => simp [notifyN]
  | succ n ih =>
    have hsend : (try_send_resize c).1 = { c with pending := c.pending ++ [()] } := by
      simp [try_send_resize, hc]
    have hc2 : ({ c with pending := c.pending ++ [()] } : ResizeChan).closed = false := hc
    calc loopResumes (notifyN (n + 1) c)
        = loopResumes (notifyN n { c with pending := c.pending ++ [()] }) := by
          rw [notifyN, hsend]
      _ = loopResumes { c with pending := c.pending ++ [()] } + n := ih _ hc2
      _ = loopResumes c + (n + 1) := by
          simp [loopResumes, drainSignals_eq_length]
          omega

theorem c2_witness :
    loopResumes (notifyN 3 { pending := [], closed := false }) = 3 :=
  c2_amended_one_resume_per_notify 3 { pending := [], closed := false } rfl

/-! ## Allocator: monotone until the u32 wraps -/

theorem bufferIdAfter_eq (k : Nat) : bufferIdAfter k = k % 2 ^ 32 := by
  induction k with
  | zero => rfl
  | succ k ih =>
    show (fetch_add_u32 (bufferIdAfter k)).2 = (k + 1) % 2 ^ 32
    rw [fetch_add_u32, ih]
    conv_rhs => rw [Nat.add_mod]
    norm_num

theorem allocRet_eq (k : Nat) : allocRet k = k % 2 ^ 32 := bufferIdAfter_eq k

/-- C5 counterexample: the allocator is a wrapping `u32` `fetch_add`, so
ids are not distinct for arbitrarily many calls: call number `2^32`
returns the same id as call number `0` (both return 0), even though they
are different calls.  On any run making more than `2^32` allocations the
claimed pairwise distinctness and strict monotonicity fail. -/
theorem c5_counterexample :
    allocRet (2 ^ 32) = allocRet 0 ∧ (2 ^ 32 : Nat) ≠ 0 := by
  constructor
  · rw [allocRet_eq, allocRet_eq]
    norm_num
  · norm_num

/-- C5 amended: in the linearization order of the sequentially consistent
`fetch_add`s, the ids are strictly increasing — hence pairwise distinct —
as long as the process performs at most `2^32` allocations; the `u32`
counter wraps after that and ids repeat. -/
theorem c5_amended_monotone_below_wrap (k l : Nat) (hkl : k < l)
    (hl : l < 2 ^ 32) :
    allocRet k < allocRet l ∧ allocRet k ≠ allocRet l := by
  rw [allocRet_eq, allocRet_eq, Nat.mod_eq_of_lt (lt_trans hkl hl),
      Nat.mod_eq_of_lt hl]
  exact ⟨hkl, Nat.ne_of_lt hkl⟩

theorem c5_witness :
    allocRet 0 < allocRet 1 ∧ allocRet 0 ≠ allocRet 1 :=
  c5_amended_monotone_below_wrap 0 1 (by decide) (by norm_num)

/-! ## Create-before-delete: FIFO bookkeeping lemmas -/

theorem hasId_pushCreated (c : List GfxBufferId) (m : GraphicsMethod)
    (id : GfxBufferId) :
    hasId (pushCreated c m) id = (createsIdB m id || hasId c id) := by
  cases m with
  | NewVertexBuffer p =>
    obtain ⟨v, i⟩ := p
    simp [pushCreated, createsIdB, hasId]
  | NewIndexBuffer p =>
    obtain ⟨v, i⟩ := p
    simp [pushCreated, createsIdB, hasId]
  | DeleteBuffer i => simp [pushCreated, createsIdB]

theorem collectCreated_cons (c : List GfxBufferId) (m : GraphicsMethod)
    (q : List GraphicsMethod) :
    collectCreated c (m :: q) = collectCreated (pushCreated c m) q := rfl

theorem hasId_collectCreated (q : List GraphicsMethod) :
    ∀ (c : List GfxBufferId) (id : GfxBufferId),
      hasId (collectCreated c q) id = (createdB q id || hasId c id) := by
  induction q with
  | nil => intro c id; simp [collectCreated, createdB]
  | cons m q ih =>
    intro c id
    rw [collectCreated_cons, ih (pushCreated c m) id, hasId_pushCreated]
    have hcons : createdB (m :: q) id = (createsIdB m id || createdB q id) := by
      simp [createdB]
    rw [hcons]
    cases createsIdB m id <;> cases createdB q id <;> cases hasId c id <;> rfl

theorem createdB_append (q1 q2 : List GraphicsMethod) (id : GfxBufferId) :
    createdB (q1 ++ q2) id = (createdB q1 id || createdB q2 id) := by
  simp [createdB]

theorem hasId_of_createdB (q : List GraphicsMethod) (id : GfxBufferId)
    (h : createdB q id = true) : hasId (collectCreated [] q) id = true := by
  rw [hasId_collectCreated, h]
  rfl

theorem okQueueAux_append (q1 q2 : List GraphicsMethod) :
    ∀ c : List GfxBufferId,
      okQueueAux c (q1 ++ q2) =
        (okQueueAux c q1 && okQueueAux (collectCreated c q1) q2) := by
  induction q1 with
  | nil => intro c; simp [okQueueAux, collectCreated]
  | cons m q1 ih =>
    intro c
    rw [List.cons_append, okQueueAux, okQueueAux, ih (pushCreated c m),
        collectCreated_cons, Bool.and_assoc]

theorem okQueueAux_deletes (l : List GfxBufferId) :
    ∀ c : List GfxBufferId, (∀ b ∈ l, hasId c b = true) →
      okQueueAux c (l.map .DeleteBuffer) = true := by
  induction l with
  | nil => intro c _; rfl
  | cons b l ih =>
    intro c h
    rw [List.map_cons, okQueueAux]
    have hb : okStep c (.DeleteBuffer b) = true := h b (List.mem_cons_self b l)
    rw [hb, show pushCreated c (.DeleteBuffer b) = c from rfl,
        ih c fun x hx => h x (List.mem_cons_of_mem b hx)]
    rfl

theorem okQueueAux_deleteAfterCreate (q : List GraphicsMethod) :
    ∀ c : List GfxBufferId, okQueueAux c q = true →
      ∀ (i : Nat) (id : GfxBufferId),
        q[i]? = some (GraphicsMethod.DeleteBuffer id) →
        hasId c id = true ∨
          ∃ (j : Nat) (m : GraphicsMethod),
            j < i ∧ q[j]? = some m ∧ createsIdB m id = true := by
  induction q with
  | nil => intro c _ i id hi; simp at hi
  | cons m q ih =>
    intro c hok i id hi
    rw [okQueueAux, Bool.and_eq_true] at hok
    cases i with
    | zero =>
      left
      have hm : m = .DeleteBuffer id := by simpa using hi
      subst hm
      exact hok.1
    | succ k =>
      have hk : q[k]? = some (.DeleteBuffer id) := by simpa using hi
      rcases ih (pushCreated c m) hok.2 k id hk with hin | ⟨j, m2, hj, hjq, hcr⟩
      · rw [hasId_pushCreated, Bool.or_eq_true] at hin
        rcases hin with hcrm | hold
        · exact Or.inr ⟨0, m, Nat.succ_pos k, by simp, hcrm⟩
        · exact Or.inl hold
      · exact Or.inr ⟨j + 1, m2, Nat.succ_lt_succ hj, by simpa using hjq, hcr⟩

theorem okQueue_implies_deleteAfterCreate (q : List GraphicsMethod)
    (h : okQueue q = true) : DeleteAfterCreate q := by
  intro i id hi
  rcases okQueueAux_deleteAfterCreate q [] h i id hi with hfalse | hgood
  · exact absurd hfalse (by simp [hasId])
  · exact hgood

theorem owedDeletes_created (q : List GraphicsMethod) (o : Option MeshInfo)
    (h : ∀ m, o = some m → meshCreated q m) :
    ∀ b ∈ owedDeletes o, createdB q b = true := by
  cases o with
  | none => simp [owedDeletes]
  | some m =>
    intro b hb
    rw [owedDeletes] at hb
    rcases List.mem_pair.mp hb with rfl | rfl
    · exact (h m rfl).1
    · exact (h m rfl).2

/-! ## Regeneration and draw-cycle equations -/

theorem regen_mesh1_spec (s : RenderSt) (hc : s.closed = false) :
    regen_mesh1 s =
      ({ s with bufferId := bump (bump s.bufferId)
                queue := s.queue ++
                  [.NewVertexBuffer (verts1, s.bufferId),
                   .NewIndexBuffer (indices1, bump s.bufferId)] },
       .ok { vertex_buffer := s.bufferId, index_buffer := bump s.bufferId
             num_elements := 6 }) := by
  simp [regen_mesh1, new_vertex_buffer, new_index_buffer, fetch_add_u32,
    sendMethod, bump, hc, verts1, indices1]

theorem regen_mesh2_spec (s : RenderSt) (hc : s.closed = false) :
    regen_mesh2 s =
      ({ s with bufferId := bump (bump s.bufferId)
                queue := s.queue ++
                  [.NewVertexBuffer (verts2, s.bufferId),
                   .NewIndexBuffer (indices2, bump s.bufferId)] },
       .ok { vertex_buffer := s.bufferId, index_buffer := bump s.bufferId
             num_elements := 12 }) := by
  simp [regen_mesh2, new_vertex_buffer, new_index_buffer, fetch_add_u32,
    sendMethod, bump, hc, verts2, indices2]

theorem regen_mesh3_spec (s : RenderSt) (hc : s.closed = false) :
    regen_mesh3 s =
      ({ s with bufferId := bump (bump s.bufferId)
                queue := s.queue ++
                  [.NewVertexBuffer (verts3, s.bufferId),
                   .NewIndexBuffer (indices3, bump s.bufferId)] },
       .ok { vertex_buffer := s.bufferId, index_buffer := bump s.bufferId
             num_elements := 36 }) := by
  simp [regen_mesh3, new_vertex_buffer, new_index_buffer, fetch_add_u32,
    sendMethod, bump, hc, verts3, indices3]

theorem foldl_delete_buffer (l : List GfxBufferId) :
    ∀ s : RenderSt, s.closed = false →
      l.foldl (fun rs b => delete_buffer b rs) s =
        { s with queue := s.queue ++ l.map .DeleteBuffer } := by
  induction l with
  | nil => intro s _; simp
  | cons b l ih =>
    intro s hc
    rw [List.foldl_cons,
      show delete_buffer b s = { s with queue := s.queue ++ [.DeleteBuffer b] } from
        by simp [delete_buffer, sendMethod, hc],
      ih { s with queue := s.queue ++ [.DeleteBuffer b] } hc]
    simp

theorem draw_spec (a : AppSt) (hc : a.rs.closed = false) :
    draw a = .ok
      { rs := { a.rs with
          bufferId := bump (bump (bump (bump (bump (bump a.rs.bufferId)))))
          queue := a.rs.queue ++
            [.NewVertexBuffer (verts3, a.rs.bufferId),
             .NewIndexBuffer (indices3, bump a.rs.bufferId),
             .NewVertexBuffer (verts2, bump (bump a.rs.bufferId)),
             .NewIndexBuffer (indices2, bump (bump (bump a.rs.bufferId))),
             .NewVertexBuffer (verts1, bump (bump (bump (bump a.rs.bufferId)))),
             .NewIndexBuffer (indices1,
               bump (bump (bump (bump (bump a.rs.bufferId)))))] ++
            ([a.mesh3.vertex_buffer, a.mesh3.index_buffer] ++
              owedDeletes a.mesh2 ++ owedDeletes a.mesh1).map .DeleteBuffer }
        mesh1 := some { vertex_buffer := bump (bump (bump (bump a.rs.bufferId)))
                        index_buffer :=
                          bump (bump (bump (bump (bump a.rs.bufferId))))
                        num_elements := 6 }
        mesh2 := some { vertex_buffer := bump (bump a.rs.bufferId)
                        index_buffer := bump (bump (bump a.rs.bufferId))
                        num_elements := 12 }
        mesh3 := { vertex_buffer := a.rs.bufferId
                   index_buffer := bump a.rs.bufferId
                   num_elements := 36 } } := by
  simp only [draw, regen_mesh3_spec, regen_mesh2_spec, regen_mesh1_spec, hc,
    publish, foldl_delete_buffer]
  simp [List.append_assoc]

theorem appInv_draw (a : AppSt) (h : AppInv a) :
    ∃ b, draw a = Except.ok b ∧ AppInv b := by
  obtain ⟨hc, hok, h3, h2, h1⟩ := h
  refine ⟨_, draw_spec a hc, hc, ?_, ⟨?_, ?_⟩, ?_, ?_⟩
  · -- the extended FIFO stays create-before-delete sound
    rw [okQueue, okQueueAux_append, okQueueAux_append]
    simp only [Bool.and_eq_true]
    refine ⟨⟨hok, ?_⟩, ?_⟩
    · simp [okQueueAux, okStep, pushCreated]
    · refine okQueueAux_deletes _ _ ?_
      intro bb hbb
      have hcr : createdB a.rs.queue bb = true := by
        rcases List.mem_append.mp hbb with hbb1 | hbb3
        · rcases List.mem_append.mp hbb1 with hbb0 | hbb2
          · rcases List.mem_pair.mp hbb0 with rfl | rfl
            · exact h3.1
            · exact h3.2
          · exact owedDeletes_created _ _ h2 bb hbb2
        · exact owedDeletes_created _ _ h1 bb hbb3
      refine hasId_of_createdB _ bb ?_
      rw [createdB_append, hcr]
      rfl
  · simp [createdB_append, createdB, createsIdB]
  · simp [createdB_append, createdB, createsIdB]
  · intro m hm
    obtain rfl : _ = m := Option.some.inj hm
    exact ⟨by simp [createdB_append, createdB, createsIdB],
           by simp [createdB_append, createdB, createsIdB]⟩
  · intro m hm
    obtain rfl : _ = m := Option.some.inj hm
    exact ⟨by simp [createdB_append, createdB, createsIdB],
           by simp [createdB_append, createdB, createsIdB]⟩

theorem appStart_inv : ∃ a, appStart = Except.ok a ∧ AppInv a := by
  refine ⟨{ rs := { bufferId := bump (bump 0)
                    queue := [.NewVertexBuffer (verts3, 0),
                              .NewIndexBuffer (indices3, bump 0)]
                    closed := false }
            mesh1 := none, mesh2 := none
            mesh3 := { vertex_buffer := 0, index_buffer := bump 0
                       num_elements := 36 } }, ?_, ?_, ?_, ⟨?_, ?_⟩, ?_, ?_⟩
  · rfl
  · rfl
  · decide
  · decide
  · decide
  · intro m hm
    exact Option.noConfusion hm
  · intro m hm
    exact Option.noConfusion hm

theorem drawN_inv (n : Nat) : ∃ a, drawN n = Except.ok a ∧ AppInv a := by
  induction n with
  | zero => simpa [drawN] using appStart_inv
  | succ n ih =>
    obtain ⟨a, ha, hinv⟩ := ih
    obtain ⟨b, hb, hinvb⟩ := appInv_draw a hinv
    refine ⟨b, ?_, hinvb⟩
    simp only [drawN, ha]
    exact hb

/-- C4: across the whole reachable behaviour of the producer — `App::new`
followed by any number of `App::draw` cycles — the command FIFO observed
by the Resource Table never holds a `DeleteBuffer id` at a position that
is not strictly preceded by the `Create` that produced `id`.  This is
exactly the source's discipline in `App::draw`: the replacement mesh is
regenerated (enqueueing its `Create`s) and committed to the slot first,
and only ids taken from a slot's previous descriptor — itself the result
of an earlier successful `Create` on the same FIFO — are enqueued for
deletion, after all swaps of the cycle. -/
theorem c4_delete_after_create (n : Nat) (a : AppSt)
    (h : drawN n = Except.ok a) : DeleteAfterCreate a.rs.queue := by
  obtain ⟨b, hb, hinv⟩ := drawN_inv n
  rw [h] at hb
  obtain rfl : a = b := Except.ok.inj hb
  obtain ⟨_, hq, _, _, _⟩ := hinv
  exact okQueue_implies_deleteAfterCreate _ hq

theorem c4_witness :
    drawN 1 = Except.ok appAfter1 ∧ DeleteAfterCreate appAfter1.rs.queue :=
  ⟨by rfl, c4_delete_after_create 1 appAfter1 (by rfl)⟩
